import Mathlib

/-!
Verification of the OneAgent bridge fragment of qwen-code.

The development shallowly embeds two source files:

* `packages/core/src/tools/report-status-tool.ts` — the `report_status`
  declarative tool.  The file ships two variants of the tool: one whose
  payload is `result` with optional `reason` and `mismatch_detail`
  (namespace `ReportStatusA` below), and one whose payload is a single
  `message` field (namespace `ReportStatusB`).
* `packages/cli/src/oneagent-bridge.ts` — the bridge entry point `main`
  (namespace `Bridge`), modelled as a function from the process arguments,
  the environment, and the outcome of the single external engine run to
  the ordered list of observable process events.

JavaScript strings are modelled as Lean `String`; `undefined` string
values as `Option String` with `none`; JavaScript truthiness of a string
is emptiness testing.  `String.prototype.toLowerCase` is modelled
character-wise (`jsToLowerCase`), which agrees with JavaScript on the
ASCII inputs relevant here.  Thrown JavaScript values are modelled as
`Error` objects carrying a `name` and a `message`.
-/

/-- Embedding of JavaScript `String.prototype.toLowerCase` (character-wise,
agreeing with JavaScript on ASCII). -/
def jsToLowerCase (s : String) : String :=
  String.mk (s.data.map Char.toLower)

/-- Lowercase hexadecimal digit, as used by `JSON.stringify` unicode escapes. -/
def hexDigit (n : Nat) : Char :=
  if n < 10 then Char.ofNat (48 + n) else Char.ofNat (87 + n)

/-- Embedding of the escaping `JSON.stringify` applies to one character of a
string value. -/
def jsonEscapeChar (c : Char) : String :=
  if c = '"' then "\\\""
  else if c = '\\' then "\\\\"
  else if c = Char.ofNat 8 then "\\b"
  else if c = Char.ofNat 9 then "\\t"
  else if c = Char.ofNat 10 then "\\n"
  else if c = Char.ofNat 12 then "\\f"
  else if c = Char.ofNat 13 then "\\r"
  else if c.toNat < 32 then
    "\\u00" ++ String.mk [hexDigit (c.toNat / 16), hexDigit (c.toNat % 16)]
  else String.mk [c]

/-- Embedding of the escaping `JSON.stringify` applies to a string value. -/
def jsonEscape (s : String) : String :=
  String.join (s.data.map jsonEscapeChar)

/-- A JSON string literal: the escaped text surrounded by double quotes. -/
def jsonQuote (s : String) : String :=
  "\"" ++ jsonEscape s ++ "\""

/-- Join a list of strings with a separator (specification-side helper used
to state the shape of multi-line renderings and JSON field lists). -/
def joinSep (sep : String) : List String → String
  | [] => ""
  | [x] => x
  | x :: xs => x ++ sep ++ joinSep sep xs

/-- Abstract world state used to make the absence of side effects of the
status-reporting action expressible: file contents and a count of network
calls. -/
structure World where
  files : List (String × String)
  networkCalls : Nat
deriving DecidableEq

namespace ReportStatusA

/-- Source: `const VALID_STATUSES = ['success', 'failure', 'rejected', 'interrupted']`
(first variant of `report-status-tool.ts`). -/
def VALID_STATUSES : List String :=
  ["success", "failure", "rejected", "interrupted"]

/-- Source: `interface ReportStatusParams` of the first variant — raw tool
parameters; `status` is any string, `reason` and `mismatch_detail` are
optional.  Normalized records share this shape (the source refines only the
static type of `status`). -/
structure ReportStatusParams where
  status : String
  result : String
  reason : Option String
  mismatch_detail : Option String
deriving DecidableEq

/-- Source: `ReportStatusTool.validateToolParamValues` (first variant).
The JavaScript truthiness tests `!params.status` / `!params.result` hold
exactly for the empty (or missing) string.  The source binds
`normalizedStatus = params.status.toLowerCase()` and checks list
membership. -/
def validateToolParamValues (params : ReportStatusParams) : Option String :=
  if params.status = "" then some "status is required"
  else if params.result = "" then some "result is required"
  else if jsToLowerCase params.status ∈ VALID_STATUSES then none
  else some ("Invalid status \"" ++ params.status ++ "\". Must be one of: "
      ++ String.intercalate ", " VALID_STATUSES ++ " (case-insensitive)")

/-- Source: `ReportStatusTool.createInvocation` (first variant) — lowercases
`status` and passes every payload field through unchanged. -/
def createInvocation (params : ReportStatusParams) : ReportStatusParams :=
  ⟨jsToLowerCase params.status, params.result, params.reason, params.mismatch_detail⟩

/-- Modelled from the spec: `BaseDeclarativeTool.build` lives in `tools.ts`,
which is not part of this fragment; per the specification, validation "must
run prior to any execution of the reporting action" and on a validation
error "the record is rejected before construction".  So `build` runs
`validateToolParamValues` and constructs the invocation record only when
validation returns null. -/
def build (params : ReportStatusParams) : Except String ReportStatusParams :=
  match validateToolParamValues params with
  | some err => Except.error err
  | none => Except.ok (createInvocation params)

/-- Source: the `ToolResult` shape produced by `execute`: `llmContent` text
blocks and a `returnDisplay` string. -/
structure ToolResult where
  llmContent : List String
  returnDisplay : String
deriving DecidableEq

/-- Embedding of `JSON.stringify(this.params)` for the first variant's
record shape: fields in insertion order `status`, `result`, `reason`,
`mismatch_detail`; fields holding `undefined` are omitted. -/
def jsonStringify (p : ReportStatusParams) : String :=
  "\x7b\"status\":" ++ jsonQuote p.status ++ ",\"result\":" ++ jsonQuote p.result
    ++ (match p.reason with
        | some r => ",\"reason\":" ++ jsonQuote r
        | none => "")
    ++ (match p.mismatch_detail with
        | some m => ",\"mismatch_detail\":" ++ jsonQuote m
        | none => "")
    ++ "\x7d"

/-- Source: `ReportStatusToolInvocation.execute` (first variant).  The
`if (this.params.reason)` / `if (this.params.mismatch_detail)` guards are
JavaScript truthiness: a present but empty optional field appends
nothing. -/
def execute (p : ReportStatusParams) : ToolResult :=
  let resultText := jsonStringify p
  let display0 := "Status: " ++ p.status ++ "\nResult: " ++ p.result
  let display1 := match p.reason with
    | some r => if r = "" then display0 else display0 ++ "\nReason: " ++ r
    | none => display0
  let display2 := match p.mismatch_detail with
    | some m => if m = "" then display1 else display1 ++ "\nMismatch Detail: " ++ m
    | none => display1
  ⟨[resultText], display2⟩

/-- Specification-side shape of the human-readable rendering: one line per
populated field, `status` first, then the payload fields; optional fields
contribute a line exactly when present with non-empty text. -/
def displayLines (p : ReportStatusParams) : List String :=
  ["Status: " ++ p.status, "Result: " ++ p.result]
    ++ (match p.reason with
        | some r => if r = "" then [] else ["Reason: " ++ r]
        | none => [])
    ++ (match p.mismatch_detail with
        | some m => if m = "" then [] else ["Mismatch Detail: " ++ m]
        | none => [])

/-- Specification-side shape of the machine-readable serialization: one
`"key":value` item per present field, in record order. -/
def jsonFields (p : ReportStatusParams) : List String :=
  ["\"status\":" ++ jsonQuote p.status, "\"result\":" ++ jsonQuote p.result]
    ++ (match p.reason with
        | some r => ["\"reason\":" ++ jsonQuote r]
        | none => [])
    ++ (match p.mismatch_detail with
        | some m => ["\"mismatch_detail\":" ++ jsonQuote m]
        | none => [])

/-- Effectful embedding of `execute`: the method body only builds strings,
so the world (files, network) passes through untouched. -/
def executeEff (p : ReportStatusParams) (w : World) : ToolResult × World :=
  (execute p, w)

/-- Run the reporting action `n` times in sequence, collecting the results. -/
def executeTimes (p : ReportStatusParams) : Nat → World → List ToolResult × World
  | 0, w => ([], w)
  | Nat.succ n, w =>
    let r := executeEff p w
    let rest := executeTimes p n r.2
    (r.1 :: rest.1, rest.2)

end ReportStatusA

namespace ReportStatusB

/-- Source: `const VALID_STATUSES = [...]` (second variant of
`report-status-tool.ts`). -/
def VALID_STATUSES : List String :=
  ["success", "failure", "rejected", "interrupted"]

/-- Source: `interface ReportStatusParams` of the second variant — raw tool
parameters with a single `message` payload field. -/
structure ReportStatusParams where
  status : String
  message : String
deriving DecidableEq

/-- Source: `ReportStatusTool.validateToolParamValues` (second variant). -/
def validateToolParamValues (params : ReportStatusParams) : Option String :=
  if params.status = "" then some "status is required"
  else if params.message = "" then some "message is required"
  else if jsToLowerCase params.status ∈ VALID_STATUSES then none
  else some ("Invalid status \"" ++ params.status ++ "\". Must be one of: "
      ++ String.intercalate ", " VALID_STATUSES ++ " (case-insensitive)")

/-- Source: `ReportStatusTool.createInvocation` (second variant). -/
def createInvocation (params : ReportStatusParams) : ReportStatusParams :=
  ⟨jsToLowerCase params.status, params.message⟩

/-- Modelled from the spec: `BaseDeclarativeTool.build` is not part of this
fragment; it runs `validateToolParamValues` and constructs the invocation
record only when validation returns null. -/
def build (params : ReportStatusParams) : Except String ReportStatusParams :=
  match validateToolParamValues params with
  | some err => Except.error err
  | none => Except.ok (createInvocation params)

/-- Source: the `ToolResult` shape produced by `execute`. -/
structure ToolResult where
  llmContent : List String
  returnDisplay : String
deriving DecidableEq

/-- Embedding of `JSON.stringify(this.params)` for the second variant's
record shape: fields `status` then `message`, both always present. -/
def jsonStringify (p : ReportStatusParams) : String :=
  "\x7b\"status\":" ++ jsonQuote p.status ++ ",\"message\":" ++ jsonQuote p.message ++ "\x7d"

/-- Source: `ReportStatusToolInvocation.execute` (second variant); note the
display labels the `message` payload with `Result:`. -/
def execute (p : ReportStatusParams) : ToolResult :=
  ⟨[jsonStringify p], "Status: " ++ p.status ++ "\nResult: " ++ p.message⟩

/-- Specification-side shape of the human-readable rendering for the second
variant: the status line, then the payload line. -/
def displayLines (p : ReportStatusParams) : List String :=
  ["Status: " ++ p.status, "Result: " ++ p.message]

/-- Specification-side shape of the machine-readable serialization for the
second variant. -/
def jsonFields (p : ReportStatusParams) : List String :=
  ["\"status\":" ++ jsonQuote p.status, "\"message\":" ++ jsonQuote p.message]

/-- Effectful embedding of `execute`: the body only builds strings, so the
world passes through untouched. -/
def executeEff (p : ReportStatusParams) (w : World) : ToolResult × World :=
  (execute p, w)

/-- Run the reporting action `n` times in sequence, collecting the results. -/
def executeTimes (p : ReportStatusParams) : Nat → World → List ToolResult × World
  | 0, w => ([], w)
  | Nat.succ n, w =>
    let r := executeEff p w
    let rest := executeTimes p n r.2
    (r.1 :: rest.1, rest.2)

end ReportStatusB

namespace Bridge

/-- A thrown JavaScript `Error` value: `String(e)` renders as
`name: message` (or just `name` when the message is empty). -/
structure JsError where
  name : String
  message : String
deriving DecidableEq

/-- Embedding of `String(e)` for an `Error` object. -/
def jsErrorToString (e : JsError) : String :=
  if e.message = "" then e.name else e.name ++ ": " ++ e.message

/-- What one external `runNonInteractive` call produced when it returned
normally: the status reports the agent chose to make during the run.  The
bridge receives this value only through the awaited promise and ignores
it. -/
structure EngineRun where
  reports : List ReportStatusA.ReportStatusParams

/-- Embedding of JavaScript `Array.prototype.indexOf` on the argument
vector: index of the first occurrence, `-1` when absent. -/
def jsIndexOf (l : List String) (x : String) : Int :=
  match l with
  | [] => -1
  | a :: rest =>
    if a = x then 0
    else
      let r := jsIndexOf rest x
      if r = -1 then -1 else r + 1

/-- Source: the `getArgValue` closure in `main` — the value at the position
after the first occurrence of `argName`, provided the flag occurs and the
following value exists and is truthy (non-empty). -/
def getArgValue (argv : List String) (argName : String) : Option String :=
  let index := jsIndexOf argv argName
  if index ≠ -1 then
    match argv.get? (index + 1).toNat with
    | some v => if v = "" then none else some v
    | none => none
  else none

/-- Embedding of JavaScript `a || b` on possibly-undefined strings: the
left operand when it is a truthy (non-empty) string, otherwise the right
operand. -/
def jsOr (a b : Option String) : Option String :=
  match a with
  | some s => if s = "" then b else some s
  | none => b

/-- Source: `const openaiApiKey = getArgValue('--openai-api-key') || process.env['OPENAI_API_KEY']`. -/
def resolveOpenaiApiKey (argv : List String) (env : String → Option String) : Option String :=
  jsOr (getArgValue argv "--openai-api-key") (env "OPENAI_API_KEY")

/-- Source: `const openaiBaseUrl = getArgValue('--openai-base-url') || process.env['OPENAI_BASE_URL']`. -/
def resolveOpenaiBaseUrl (argv : List String) (env : String → Option String) : Option String :=
  jsOr (getArgValue argv "--openai-base-url") (env "OPENAI_BASE_URL")

/-- Template-literal interpolation of a possibly-undefined string. -/
def jsDisplayOpt : Option String → String
  | none => "undefined"
  | some s => s

/-- Source: the advisory configuration log line; `substring(0, 30)` is
`String.take 30`, and `?.` on `undefined` interpolates as `undefined`. -/
def configLine (argv : List String) (env : String → Option String) : String :=
  "[bridge] Config: model=" ++ jsDisplayOpt (getArgValue argv "--model")
    ++ ", base_url="
    ++ (match resolveOpenaiBaseUrl argv env with
        | none => "undefined"
        | some s => s.take 30)
    ++ "..."

/-- Observable events of one bridge process run, in program order. -/
inductive BridgeEvent where
  | setEnv (key value : String)
  | readPrompt (value : Option String)
  | stdout (line : String)
  | stderr (line : String)
  | loadSettings
  | buildConfig (model apiKey baseUrl : Option String) (prompt : String)
  | initializeConfig
  | refreshAuth
  | registerTool (toolName : String)
  | runEngine (prompt : String)
  | exitProcess (code : Nat)
deriving DecidableEq

/-- Source: the usage message printed when the prompt argument is missing. -/
def usageLine : String := "Usage: node oneagent-bridge.js <prompt>"

/-- Source: the fixed success marker line. -/
def successMarker : String :=
  "__ONEAGENT_RESULT__:\x7b\"status\":\"success\",\"result\":\"Task completed successfully via native CLI.\"\x7d"

/-- Source: the failure marker line with the thrown error's string form
embedded. -/
def failureMarker (e : JsError) : String :=
  "__ONEAGENT_RESULT__:\x7b\"status\":\"failure\",\"result\":\"Bridge Exception: "
    ++ jsErrorToString e ++ "\"\x7d"

/-- The fixed marker text callers scan stdout for. -/
def markerHead : String := "__ONEAGENT_RESULT__:"

/-- Whether a stdout line is a marker line: it starts with the marker
text. -/
def isMarkerLine (l : String) : Bool :=
  markerHead.data.isPrefixOf l.data

/-- Source: `main` of `oneagent-bridge.ts`, as the ordered list of events
it produces.  Parameters: the full `process.argv` (the prompt is
`argv[2]`), the process environment, and the outcome of the single awaited
`runNonInteractive` call (the external setup calls — settings loading,
config construction, initialization, auth refresh, tool registration — are
external collaborators modelled as succeeding). -/
def mainRun (argv : List String) (env : String → Option String)
    (outcome : Except JsError EngineRun) : List BridgeEvent :=
  [BridgeEvent.setEnv "QWEN_DISABLE_TELEMETRY" "true",
   BridgeEvent.setEnv "QWEN_CODE_TELEMETRY_DISABLED" "1",
   BridgeEvent.readPrompt (argv.get? 2)] ++
  (match argv.get? 2 with
   | none => [BridgeEvent.stderr usageLine, BridgeEvent.exitProcess 1]
   | some prompt =>
     if prompt = "" then [BridgeEvent.stderr usageLine, BridgeEvent.exitProcess 1]
     else
       [BridgeEvent.loadSettings,
        BridgeEvent.stdout (configLine argv env),
        BridgeEvent.buildConfig (getArgValue argv "--model")
          (resolveOpenaiApiKey argv env) (resolveOpenaiBaseUrl argv env) prompt,
        BridgeEvent.initializeConfig,
        BridgeEvent.refreshAuth,
        BridgeEvent.registerTool "report_status",
        BridgeEvent.stdout "[bridge] Starting native CLI loop...",
        BridgeEvent.setEnv "QWEN_DISABLE_TELEMETRY" "true",
        BridgeEvent.runEngine prompt] ++
       (match outcome with
        | Except.ok _ =>
          [BridgeEvent.stdout successMarker, BridgeEvent.exitProcess 0]
        | Except.error e =>
          [BridgeEvent.stderr ("Bridge Error: " ++ jsErrorToString e),
           BridgeEvent.stdout (failureMarker e), BridgeEvent.exitProcess 1]))

/-- The stdout lines of a run, in order (one entry per `console.log`). -/
def stdoutOf (evs : List BridgeEvent) : List String :=
  evs.filterMap fun e => match e with
    | BridgeEvent.stdout l => some l
    | _ => none

/-- The stderr lines of a run, in order (one entry per `console.error`). -/
def stderrOf (evs : List BridgeEvent) : List String :=
  evs.filterMap fun e => match e with
    | BridgeEvent.stderr l => some l
    | _ => none

/-- The process exit code: the code of the first `process.exit` call. -/
def exitCodeOf (evs : List BridgeEvent) : Option Nat :=
  (evs.filterMap fun e => match e with
    | BridgeEvent.exitProcess c => some c
    | _ => none).head?

end Bridge

/-- Helper: each of the four recognized status strings is lowercase-stable
and non-empty. -/
lemma validStatus_facts (s : String)
    (hs : s ∈ (["success", "failure", "rejected", "interrupted"] : List String)) :
    jsToLowerCase s = s ∧ s ≠ "" := by
  simp only [List.mem_cons, List.not_mem_nil, or_false] at hs
  rcases hs with h | h | h | h <;> subst h <;> exact ⟨rfl, by decide⟩

/-- Helper: characterization of successful validation for the first
variant. -/
lemma validateA_none_iff (p : ReportStatusA.ReportStatusParams) :
    ReportStatusA.validateToolParamValues p = none ↔
      (p.status ≠ "" ∧ p.result ≠ ""
        ∧ jsToLowerCase p.status ∈ ReportStatusA.VALID_STATUSES) := by
  unfold ReportStatusA.validateToolParamValues
  split_ifs with h1 h2 h3 <;> simp_all

/-- Helper: characterization of successful validation for the second
variant. -/
lemma validateB_none_iff (q : ReportStatusB.ReportStatusParams) :
    ReportStatusB.validateToolParamValues q = none ↔
      (q.status ≠ "" ∧ q.message ≠ ""
        ∧ jsToLowerCase q.status ∈ ReportStatusB.VALID_STATUSES) := by
  unfold ReportStatusB.validateToolParamValues
  split_ifs with h1 h2 h3 <;> simp_all

/-- C1: for every raw input to the status tool's validation, validation
returns a descriptive error string — and the builder constructs no
invocation record — if and only if the status field is empty, the payload
text is empty, or the case-folded status is not one of
`success`, `failure`, `rejected`, `interrupted`; otherwise validation
returns null and the record is built.  Stated for both variants of the
tool. -/
theorem c1_validation_error_iff :
    (∀ p : ReportStatusA.ReportStatusParams,
      ((ReportStatusA.validateToolParamValues p).isSome ↔
        (p.status = "" ∨ p.result = ""
          ∨ jsToLowerCase p.status ∉ ReportStatusA.VALID_STATUSES))
      ∧ (∀ e, ReportStatusA.build p = Except.error e →
          ReportStatusA.validateToolParamValues p = some e)
      ∧ (ReportStatusA.validateToolParamValues p = none ↔
          ∃ inv, ReportStatusA.build p = Except.ok inv))
    ∧ (∀ q : ReportStatusB.ReportStatusParams,
      ((ReportStatusB.validateToolParamValues q).isSome ↔
        (q.status = "" ∨ q.message = ""
          ∨ jsToLowerCase q.status ∉ ReportStatusB.VALID_STATUSES))
      ∧ (∀ e, ReportStatusB.build q = Except.error e →
          ReportStatusB.validateToolParamValues q = some e)
      ∧ (ReportStatusB.validateToolParamValues q = none ↔
          ∃ inv, ReportStatusB.build q = Except.ok inv)) := by
  constructor
  · intro p
    refine ⟨?_, ?_, ?_⟩
    · rw [Option.isSome_iff_ne_none, ne_eq, validateA_none_iff]
      tauto
    · intro e he
      simp only [ReportStatusA.build] at he
      cases hv : ReportStatusA.validateToolParamValues p with
      | none => rw [hv] at he; simp at he
      | some a => rw [hv] at he; simp at he; rw [he]
    · constructor
      · intro h
        exact ⟨ReportStatusA.createInvocation p, by simp [ReportStatusA.build, h]⟩
      · rintro ⟨inv, hi⟩
        simp only [ReportStatusA.build] at hi
        cases hv : ReportStatusA.validateToolParamValues p with
        | none => rfl
        | some a => rw [hv] at hi; simp at hi
  · intro q
    refine ⟨?_, ?_, ?_⟩
    · rw [Option.isSome_iff_ne_none, ne_eq, validateB_none_iff]
      tauto
    · intro e he
      simp only [ReportStatusB.build] at he
      cases hv : ReportStatusB.validateToolParamValues q with
      | none => rw [hv] at he; simp at he
      | some a => rw [hv] at he; simp at he; rw [he]
    · constructor
      · intro h
        exact ⟨ReportStatusB.createInvocation q, by simp [ReportStatusB.build, h]⟩
      · rintro ⟨inv, hi⟩
        simp only [ReportStatusB.build] at hi
        cases hv : ReportStatusB.validateToolParamValues q with
        | none => rfl
        | some a => rw [hv] at hi; simp at hi

/-- Witness for C1 at concrete inputs: an unrecognized status token fails
validation, and a case-variant recognized token passes and builds. -/
theorem c1_validation_error_iff_witness :
    (ReportStatusA.validateToolParamValues ⟨"bogus", "done", none, none⟩).isSome
    ∧ ReportStatusB.validateToolParamValues ⟨"SUCCESS", "done"⟩ = none := by
  constructor
  · exact (c1_validation_error_iff.1 ⟨"bogus", "done", none, none⟩).1.mpr
      (Or.inr (Or.inr (by decide)))
  · exact ((c1_validation_error_iff.2 ⟨"SUCCESS", "done"⟩).2.2.mpr
      ⟨⟨"success", "done"⟩, rfl⟩)

/-- C2: for every input accepted by validation, the constructed normalized
record has status equal to the lowercase form of the supplied token — a
member of the canonical lowercase status set — and every payload text field
is preserved verbatim; in particular all case variants of `success`
normalize to `"success"`. -/
theorem c2_normalization_lowercases_and_preserves :
    (∀ p : ReportStatusA.ReportStatusParams,
      ReportStatusA.validateToolParamValues p = none →
        (ReportStatusA.createInvocation p).status = jsToLowerCase p.status
        ∧ (ReportStatusA.createInvocation p).status ∈ ReportStatusA.VALID_STATUSES
        ∧ (ReportStatusA.createInvocation p).result = p.result
        ∧ (ReportStatusA.createInvocation p).reason = p.reason
        ∧ (ReportStatusA.createInvocation p).mismatch_detail = p.mismatch_detail)
    ∧ (∀ q : ReportStatusB.ReportStatusParams,
      ReportStatusB.validateToolParamValues q = none →
        (ReportStatusB.createInvocation q).status = jsToLowerCase q.status
        ∧ (ReportStatusB.createInvocation q).status ∈ ReportStatusB.VALID_STATUSES
        ∧ (ReportStatusB.createInvocation q).message = q.message)
    ∧ (ReportStatusA.createInvocation ⟨"SUCCESS", "ok", none, none⟩).status = "success"
    ∧ (ReportStatusA.createInvocation ⟨"Success", "ok", none, none⟩).status = "success"
    ∧ (ReportStatusA.createInvocation ⟨"success", "ok", none, none⟩).status = "success" := by
  refine ⟨?_, ?_, rfl, rfl, rfl⟩
  · intro p h
    exact ⟨rfl, ((validateA_none_iff p).mp h).2.2, rfl, rfl, rfl⟩
  · intro q h
    exact ⟨rfl, ((validateB_none_iff q).mp h).2.2, rfl⟩

/-- Witness for C2 at concrete accepted inputs. -/
theorem c2_normalization_lowercases_and_preserves_witness :
    ((ReportStatusA.createInvocation ⟨"SUCCESS", "All done", none, none⟩).status
        ∈ ReportStatusA.VALID_STATUSES
      ∧ (ReportStatusA.createInvocation ⟨"SUCCESS", "All done", none, none⟩).result
        = "All done")
    ∧ (ReportStatusB.createInvocation ⟨"InterRupted", "need help"⟩).status
        ∈ ReportStatusB.VALID_STATUSES := by
  refine ⟨⟨?_, ?_⟩, ?_⟩
  · exact (c2_normalization_lowercases_and_preserves.1
      ⟨"SUCCESS", "All done", none, none⟩ (by decide)).2.1
  · exact (c2_normalization_lowercases_and_preserves.1
      ⟨"SUCCESS", "All done", none, none⟩ (by decide)).2.2.1
  · exact (c2_normalization_lowercases_and_preserves.2.1
      ⟨"InterRupted", "need help"⟩ (by decide)).2.1

/-- C9: normalization round-trips: a record accepted by validation still
passes validation after normalization, and normalizing an
already-normalized record is the identity.  Stated for both variants. -/
theorem c9_normalization_roundtrip :
    (∀ p : ReportStatusA.ReportStatusParams,
      ReportStatusA.validateToolParamValues p = none →
        ReportStatusA.validateToolParamValues (ReportStatusA.createInvocation p) = none
        ∧ ReportStatusA.createInvocation (ReportStatusA.createInvocation p)
            = ReportStatusA.createInvocation p)
    ∧ (∀ q : ReportStatusB.ReportStatusParams,
      ReportStatusB.validateToolParamValues q = none →
        ReportStatusB.validateToolParamValues (ReportStatusB.createInvocation q) = none
        ∧ ReportStatusB.createInvocation (ReportStatusB.createInvocation q)
            = ReportStatusB.createInvocation q) := by
  constructor
  · intro p h
    obtain ⟨h1, h2, h3⟩ := (validateA_none_iff p).mp h
    obtain ⟨hl, hne⟩ := validStatus_facts _
      (by simpa [ReportStatusA.VALID_STATUSES] using h3)
    refine ⟨(validateA_none_iff _).mpr ⟨hne, h2, ?_⟩, ?_⟩
    · show jsToLowerCase (jsToLowerCase p.status) ∈ _
      rw [hl]; exact h3
    · show ReportStatusA.createInvocation _ = _
      simp [ReportStatusA.createInvocation, hl]
  · intro q h
    obtain ⟨h1, h2, h3⟩ := (validateB_none_iff q).mp h
    obtain ⟨hl, hne⟩ := validStatus_facts _
      (by simpa [ReportStatusB.VALID_STATUSES] using h3)
    refine ⟨(validateB_none_iff _).mpr ⟨hne, h2, ?_⟩, ?_⟩
    · show jsToLowerCase (jsToLowerCase q.status) ∈ _
      rw [hl]; exact h3
    · show ReportStatusB.createInvocation _ = _
      simp [ReportStatusB.createInvocation, hl]

/-- Witness for C9 at concrete accepted inputs. -/
theorem c9_normalization_roundtrip_witness :
    ReportStatusA.validateToolParamValues
      (ReportStatusA.createInvocation ⟨"Failure", "oops", some "why", none⟩) = none
    ∧ ReportStatusB.createInvocation (ReportStatusB.createInvocation ⟨"REJECTED", "no"⟩)
        = ReportStatusB.createInvocation ⟨"REJECTED", "no"⟩ := by
  constructor
  · exact (c9_normalization_roundtrip.1 ⟨"Failure", "oops", some "why", none⟩
      (by decide)).1
  · exact (c9_normalization_roundtrip.2 ⟨"REJECTED", "no"⟩ (by decide)).2

/-- C3: for every normalized record, the reporting action produces exactly
two outputs: the machine-readable serialization — the JSON object listing
each present field once, in record order — and the human-readable rendering
joining one line per populated field with newlines, status line first, then
the payload lines, optional fields contributing no line when absent (or
empty, which JavaScript truthiness treats as absent).  Stated for both
variants. -/
theorem c3_execute_two_outputs :
    (∀ p : ReportStatusA.ReportStatusParams,
      (ReportStatusA.execute p).llmContent = [ReportStatusA.jsonStringify p]
      ∧ ReportStatusA.jsonStringify p
          = "\x7b" ++ joinSep "," (ReportStatusA.jsonFields p) ++ "\x7d"
      ∧ (ReportStatusA.execute p).returnDisplay
          = joinSep "\n" (ReportStatusA.displayLines p))
    ∧ (∀ q : ReportStatusB.ReportStatusParams,
      (ReportStatusB.execute q).llmContent = [ReportStatusB.jsonStringify q]
      ∧ ReportStatusB.jsonStringify q
          = "\x7b" ++ joinSep "," (ReportStatusB.jsonFields q) ++ "\x7d"
      ∧ (ReportStatusB.execute q).returnDisplay
          = joinSep "\n" (ReportStatusB.displayLines q)) := by
  constructor
  · intro p
    refine ⟨rfl, ?_, ?_⟩
    · rcases hr : p.reason with _ | r <;> rcases hm : p.mismatch_detail with _ | m <;>
        · apply String.ext
          simp [ReportStatusA.jsonStringify, ReportStatusA.jsonFields, joinSep, hr, hm,
            String.data_append, List.append_assoc]
    · rcases hr : p.reason with _ | r <;> rcases hm : p.mismatch_detail with _ | m <;>
        simp only [ReportStatusA.execute, ReportStatusA.displayLines, hr, hm] <;>
        (try split_ifs) <;>
        · apply String.ext
          simp [joinSep, String.data_append, List.append_assoc]
  · intro q
    refine ⟨rfl, ?_, ?_⟩
    · apply String.ext
      simp [ReportStatusB.jsonStringify, ReportStatusB.jsonFields, joinSep,
        String.data_append, List.append_assoc]
    · apply String.ext
      simp [ReportStatusB.execute, ReportStatusB.displayLines, joinSep,
        String.data_append, List.append_assoc]

/-- C7: the reporting action is idempotent and side-effect-free beyond its
two output values: running it any number of times returns the same result
every time and leaves the world (files, network) untouched.  Stated for
both variants. -/
theorem c7_execute_idempotent_no_side_effects :
    (∀ (p : ReportStatusA.ReportStatusParams) (w : World) (n : Nat),
      ReportStatusA.executeTimes p n w = (List.replicate n (ReportStatusA.execute p), w))
    ∧ (∀ (q : ReportStatusB.ReportStatusParams) (w : World) (n : Nat),
      ReportStatusB.executeTimes q n w = (List.replicate n (ReportStatusB.execute q), w)) := by
  constructor
  · intro p w n
    induction n with
    | zero => rfl
    | succ n ih =>
      simp [ReportStatusA.executeTimes, ReportStatusA.executeEff, ih, List.replicate]
  · intro q w n
    induction n with
    | zero => rfl
    | succ n ih =>
      simp [ReportStatusB.executeTimes, ReportStatusB.executeEff, ih, List.replicate]

/-- Helper: the success marker line starts with the marker text. -/
lemma isMarkerLine_successMarker : Bridge.isMarkerLine Bridge.successMarker = true := by
  decide

/-- Helper: every failure marker line starts with the marker text. -/
lemma isMarkerLine_failureMarker (e : Bridge.JsError) :
    Bridge.isMarkerLine (Bridge.failureMarker e) = true := by
  simp [Bridge.isMarkerLine, Bridge.failureMarker, Bridge.markerHead,
    String.data_append, List.isPrefixOf]

/-- Helper: the advisory configuration line is not a marker line. -/
lemma not_isMarkerLine_configLine (argv : List String) (env : String → Option String) :
    Bridge.isMarkerLine (Bridge.configLine argv env) = false := by
  simp [Bridge.isMarkerLine, Bridge.configLine, Bridge.markerHead,
    String.data_append, List.isPrefixOf]

/-- Helper: the advisory start-up line is not a marker line. -/
lemma not_isMarkerLine_startLine :
    Bridge.isMarkerLine "[bridge] Starting native CLI loop..." = false := by
  decide

/-- C4: on completion of the bridge's single run, whatever the outcome,
the last stdout line is the one marker line (`successMarker` on normal
return, `failureMarker` on a thrown error), it is the only marker line in
the whole stdout, the process exits with code 0 on success and 1 on
failure, and when the engine throws `Error("boom")` the final stdout line
is exactly the expected failure marker text. -/
theorem c4_marker_line_contract (a0 a1 p : String) (rest : List String)
    (env : String → Option String) (outcome : Except Bridge.JsError Bridge.EngineRun)
    (hp : p ≠ "") :
    (Bridge.stdoutOf (Bridge.mainRun (a0 :: a1 :: p :: rest) env outcome)).getLast?
        = some (match outcome with
                | Except.ok _ => Bridge.successMarker
                | Except.error e => Bridge.failureMarker e)
    ∧ Bridge.exitCodeOf (Bridge.mainRun (a0 :: a1 :: p :: rest) env outcome)
        = some (match outcome with
                | Except.ok _ => 0
                | Except.error _ => 1)
    ∧ ((Bridge.stdoutOf (Bridge.mainRun (a0 :: a1 :: p :: rest) env outcome)).filter
          (fun l => Bridge.isMarkerLine l)).length = 1
    ∧ (Bridge.stdoutOf (Bridge.mainRun (a0 :: a1 :: p :: rest) env
          (Except.error ⟨"Error", "boom"⟩))).getLast?
        = some "__ONEAGENT_RESULT__:\x7b\"status\":\"failure\",\"result\":\"Bridge Exception: Error: boom\"\x7d" := by
  refine ⟨?_, ?_, ?_, ?_⟩
  · rcases outcome with run | e <;>
      simp [Bridge.mainRun, Bridge.stdoutOf, hp, List.get?]
  · rcases outcome with run | e <;>
      simp [Bridge.mainRun, Bridge.exitCodeOf, hp, List.get?]
  · rcases outcome with run | e <;>
      simp [Bridge.mainRun, Bridge.stdoutOf, hp, List.get?, List.filter,
        isMarkerLine_successMarker, isMarkerLine_failureMarker,
        not_isMarkerLine_configLine, not_isMarkerLine_startLine]
  · simp [Bridge.mainRun, Bridge.stdoutOf, hp, List.get?]
    rfl

/-- Witness for C4 at a concrete invocation where the engine throws
`Error("boom")`. -/
theorem c4_marker_line_contract_witness :
    ("write a file" : String) ≠ ""
    ∧ (Bridge.stdoutOf (Bridge.mainRun ["node", "oneagent-bridge.js", "write a file"]
          (fun _ => none) (Except.error ⟨"Error", "boom"⟩))).getLast?
        = some "__ONEAGENT_RESULT__:\x7b\"status\":\"failure\",\"result\":\"Bridge Exception: Error: boom\"\x7d" := by
  refine ⟨by decide, ?_⟩
  exact (c4_marker_line_contract "node" "oneagent-bridge.js" "write a file" []
    (fun _ => none) (Except.error ⟨"Error", "boom"⟩) (by decide)).2.2.2

/-- C5: invoked with no prompt argument (or an empty one, which JavaScript
truthiness treats the same), the bridge prints the usage message to stderr,
exits with code 1, and prints nothing — in particular no marker line — to
stdout. -/
theorem c5_no_prompt_usage (argv : List String) (env : String → Option String)
    (outcome : Except Bridge.JsError Bridge.EngineRun)
    (h : argv.get? 2 = none ∨ argv.get? 2 = some "") :
    Bridge.stdoutOf (Bridge.mainRun argv env outcome) = []
    ∧ Bridge.stderrOf (Bridge.mainRun argv env outcome) = [Bridge.usageLine]
    ∧ Bridge.exitCodeOf (Bridge.mainRun argv env outcome) = some 1
    ∧ ∀ l ∈ Bridge.stdoutOf (Bridge.mainRun argv env outcome),
        Bridge.isMarkerLine l = false := by
  have h2 : argv[2]? = none ∨ argv[2]? = some "" := by simpa using h
  rcases h2 with h2 | h2 <;>
    exact ⟨by simp [Bridge.mainRun, Bridge.stdoutOf, h2],
      by simp [Bridge.mainRun, Bridge.stderrOf, h2],
      by simp [Bridge.mainRun, Bridge.exitCodeOf, h2],
      by simp [Bridge.mainRun, Bridge.stdoutOf, h2]⟩

/-- Witness for C5 at a concrete two-element argument vector. -/
theorem c5_no_prompt_usage_witness :
    Bridge.stdoutOf (Bridge.mainRun ["node", "oneagent-bridge.js"]
        (fun _ => none) (Except.ok ⟨[]⟩)) = []
    ∧ Bridge.exitCodeOf (Bridge.mainRun ["node", "oneagent-bridge.js"]
        (fun _ => none) (Except.ok ⟨[]⟩)) = some 1 := by
  constructor
  · exact (c5_no_prompt_usage ["node", "oneagent-bridge.js"] (fun _ => none)
      (Except.ok ⟨[]⟩) (Or.inl rfl)).1
  · exact (c5_no_prompt_usage ["node", "oneagent-bridge.js"] (fun _ => none)
      (Except.ok ⟨[]⟩) (Or.inl rfl)).2.2.1

/-- C8: on every invocation, whatever the arguments, environment and engine
outcome, the first two events of the bridge run set the two
telemetry-disable environment variables, and only then is the prompt read
(the third event) — before loading settings or any other work. -/
theorem c8_telemetry_disabled_first (argv : List String) (env : String → Option String)
    (outcome : Except Bridge.JsError Bridge.EngineRun) :
    (Bridge.mainRun argv env outcome).take 2
        = [Bridge.BridgeEvent.setEnv "QWEN_DISABLE_TELEMETRY" "true",
           Bridge.BridgeEvent.setEnv "QWEN_CODE_TELEMETRY_DISABLED" "1"]
    ∧ (Bridge.mainRun argv env outcome).get? 2
        = some (Bridge.BridgeEvent.readPrompt (argv.get? 2)) := by
  constructor <;> simp [Bridge.mainRun, List.take, List.get?]

/-- C10: on a successful run the marker line is the fixed constant success
marker: the embedded result text is the same for every instruction,
environment and engine run, reflecting no status report the agent produced
during the run. -/
theorem c10_success_marker_constant (a0 a1 p : String) (rest : List String)
    (env : String → Option String) (run : Bridge.EngineRun) (hp : p ≠ "") :
    (Bridge.stdoutOf (Bridge.mainRun (a0 :: a1 :: p :: rest) env (Except.ok run))).getLast?
        = some "__ONEAGENT_RESULT__:\x7b\"status\":\"success\",\"result\":\"Task completed successfully via native CLI.\"\x7d"
    ∧ ∀ (b0 b1 p2 : String) (rest2 : List String) (env2 : String → Option String)
        (run2 : Bridge.EngineRun), p2 ≠ "" →
        (Bridge.stdoutOf (Bridge.mainRun (b0 :: b1 :: p2 :: rest2) env2 (Except.ok run2))).getLast?
          = (Bridge.stdoutOf (Bridge.mainRun (a0 :: a1 :: p :: rest) env (Except.ok run))).getLast? := by
  constructor
  · simp [Bridge.mainRun, Bridge.stdoutOf, hp, List.get?]
    rfl
  · intro b0 b1 p2 rest2 env2 run2 hp2
    simp [Bridge.mainRun, Bridge.stdoutOf, hp, hp2, List.get?]

/-- Witness for C10 at a concrete successful invocation. -/
theorem c10_success_marker_constant_witness :
    (Bridge.stdoutOf (Bridge.mainRun ["node", "oneagent-bridge.js", "say hi"]
        (fun _ => none) (Except.ok ⟨[⟨"success", "hi said", none, none⟩]⟩))).getLast?
      = some "__ONEAGENT_RESULT__:\x7b\"status\":\"success\",\"result\":\"Task completed successfully via native CLI.\"\x7d" := by
  exact (c10_success_marker_constant "node" "oneagent-bridge.js" "say hi" []
    (fun _ => none) ⟨[⟨"success", "hi said", none, none⟩]⟩ (by decide)).1

/-- Helper: `getArgValue` never returns an empty string (the truthiness
guard filters it out). -/
lemma getArgValue_some_ne_empty {argv : List String} {n v : String}
    (h : Bridge.getArgValue argv n = some v) : v ≠ "" := by
  simp only [Bridge.getArgValue] at h
  split_ifs at h with h1
  · cases hg : argv.get? ((Bridge.jsIndexOf argv n) + 1).toNat with
    | none => rw [hg] at h; cases h
    | some w =>
      rw [hg] at h
      by_cases h2 : w = ""
      · simp [h2] at h
      · simp [h2] at h
        subst h
        exact h2

/-- C6 counterexample: with the flag `--openai-api-key` present as the last
argument (no value follows it) and the environment variable set, the bridge
uses the environment value even though the flag is present — refuting
"falls back to the environment variables only when the flag is absent" at
this concrete input. -/
theorem c6_env_fallback_despite_flag_counterexample :
    "--openai-api-key"
        ∈ (["node", "oneagent-bridge.js", "do the task", "--openai-api-key"] : List String)
    ∧ Bridge.getArgValue ["node", "oneagent-bridge.js", "do the task", "--openai-api-key"]
        "--openai-api-key" = none
    ∧ Bridge.resolveOpenaiApiKey ["node", "oneagent-bridge.js", "do the task", "--openai-api-key"]
        (fun k => if k = "OPENAI_API_KEY" then some "env-secret" else none)
        = some "env-secret" := by
  exact ⟨by decide, by decide, by decide⟩

/-- C6 as amended: the bridge uses the value following the flag whenever the
flag is present and followed by a non-empty value (`getArgValue` succeeds),
and falls back to the corresponding environment variable exactly when
`getArgValue` yields nothing — the flag is absent, is the last argument, or
is followed by an empty string.  Flags take priority over environment
variables. -/
theorem c6_flag_env_priority_amended :
    ∀ (argv : List String) (env : String → Option String),
      (∀ v, Bridge.getArgValue argv "--openai-api-key" = some v →
          Bridge.resolveOpenaiApiKey argv env = some v)
      ∧ (Bridge.getArgValue argv "--openai-api-key" = none →
          Bridge.resolveOpenaiApiKey argv env = env "OPENAI_API_KEY")
      ∧ (∀ v, Bridge.getArgValue argv "--openai-base-url" = some v →
          Bridge.resolveOpenaiBaseUrl argv env = some v)
      ∧ (Bridge.getArgValue argv "--openai-base-url" = none →
          Bridge.resolveOpenaiBaseUrl argv env = env "OPENAI_BASE_URL") := by
  intro argv env
  refine ⟨?_, ?_, ?_, ?_⟩
  · intro v hv
    have hne := getArgValue_some_ne_empty hv
    simp [Bridge.resolveOpenaiApiKey, Bridge.jsOr, hv, hne]
  · intro h
    simp [Bridge.resolveOpenaiApiKey, Bridge.jsOr, h]
  · intro v hv
    have hne := getArgValue_some_ne_empty hv
    simp [Bridge.resolveOpenaiBaseUrl, Bridge.jsOr, hv, hne]
  · intro h
    simp [Bridge.resolveOpenaiBaseUrl, Bridge.jsOr, h]

/-- Witness for the amended C6 at concrete argument vectors: the flag value
wins when supplied; the environment value is used when the flag is
absent. -/
theorem c6_flag_env_priority_amended_witness :
    Bridge.resolveOpenaiApiKey
        ["node", "oneagent-bridge.js", "task", "--openai-api-key", "cli-key"]
        (fun _ => some "env-key") = some "cli-key"
    ∧ Bridge.resolveOpenaiBaseUrl ["node", "oneagent-bridge.js", "task"]
        (fun _ => some "http://env.example") = some "http://env.example" := by
  constructor
  · exact (c6_flag_env_priority_amended
      ["node", "oneagent-bridge.js", "task", "--openai-api-key", "cli-key"]
      (fun _ => some "env-key")).1 "cli-key" (by decide)
  · exact (c6_flag_env_priority_amended ["node", "oneagent-bridge.js", "task"]
      (fun _ => some "http://env.example")).2.2.2 (by decide)
